import Mathlib

/-!
Verification of the OnoloGas authentication session-lifecycle and
cache-consistency subsystem. The definitions below are shallow embeddings of
the repository code: the React Query cache-key registry and scoped purge
(lib/queryKeys.ts), the auth service (services/auth/AuthService.ts), the auth
context (contexts/AuthContext.tsx), the corrupted-auth handler in the
auth-state module, the order service (services/orders/OrderService.ts) and
the in-flight session-refresh deduplication of the session-hardening module.
Definitions come first, followed by the theorems about them.
-/

namespace OnoloGas

/-! ## Cache keys and the scoped purge (lib/queryKeys.ts) -/

/-- A React Query cache key: a list of string components. -/
abbrev CacheKey := List String

/-- The query cache, modelled as the list of keys currently cached. -/
abbrev Cache := List CacheKey

namespace queryKeys

/-- queryKeys.auth.user from lib/queryKeys.ts. -/
def authUser : CacheKey := ["auth", "user"]

/-- queryKeys.auth.session. -/
def authSession : CacheKey := ["auth", "session"]

/-- queryKeys.auth.status. -/
def authStatus : CacheKey := ["auth", "status"]

/-- queryKeys.profile.detail: the profile key uses the user namespace. -/
def profileDetail (userId : String) : CacheKey := ["user", userId, "profile"]

/-- queryKeys.orders.byUser. -/
def ordersByUser (userId : String) : CacheKey := ["orders", "user", userId]

/-- queryKeys.orders.stats. -/
def ordersStats (userId : String) : CacheKey := ["orders", "stats", userId]

/-- queryKeys.messages.byUser. -/
def messagesByUser (userId : String) : CacheKey := ["messages", "user", userId]

/-- queryKeys.messages.unreadCount. -/
def messagesUnreadCount (userId : String) : CacheKey := ["messages", "unread", userId]

/-- queryKeys.messages.conversation. -/
def messagesConversation (userId : String) : CacheKey := ["messages", "conversation", userId]

/-- queryKeys.notifications.settings. -/
def notificationsSettings (userId : String) : CacheKey := ["notifications", "settings", userId]

/-- queryKeys.notifications.preferences. -/
def notificationsPreferences (userId : String) : CacheKey := ["notifications", "preferences", userId]

/-- queryKeys.notifications.history. -/
def notificationsHistory (userId : String) : CacheKey := ["notifications", "history", userId]

end queryKeys

/-- getUserScopedKeys from lib/queryKeys.ts: every user-scoped query key,
as enumerated by the registry itself for cache cleanup. -/
def getUserScopedKeys (userId : String) : List CacheKey :=
  [ queryKeys.profileDetail userId
  , queryKeys.ordersByUser userId
  , queryKeys.ordersStats userId
  , queryKeys.messagesByUser userId
  , queryKeys.messagesUnreadCount userId
  , queryKeys.messagesConversation userId
  , queryKeys.notificationsSettings userId
  , queryKeys.notificationsPreferences userId
  , queryKeys.notificationsHistory userId ]

/-- The predicate passed to queryClient.removeQueries by clearUserScopedCache
in lib/queryKeys.ts, translated clause by clause from the source. -/
def clearUserScopedCachePredicate (userId : String) (key : CacheKey) : Bool :=
  (key[0]? == some "user" && key[1]? == some userId)
  || (key[0]? == some "auth")
  || (key[0]? == some "orders" && key[1]? == some "user" && key[2]? == some userId)
  || (key[0]? == some "messages" && key[1]? == some "user" && key[2]? == some userId)
  || (key[0]? == some "notifications" && key.contains userId)

/-- clearUserScopedCache: removeQueries deletes every cached key matching the
predicate, leaving the rest. -/
def clearUserScopedCache (cache : Cache) (userId : String) : Cache :=
  cache.filter (fun key => !(clearUserScopedCachePredicate userId key))

/-- A cache populated with the canonical keys of two users plus the global
auth keys. -/
def populatedCache (a b : String) : Cache :=
  getUserScopedKeys a
    ++ [queryKeys.authUser, queryKeys.authSession, queryKeys.authStatus]
    ++ getUserScopedKeys b

/-! ## String helpers mirroring the JavaScript string operations used -/

/-- JavaScript String.prototype.startsWith, on character lists. -/
def jsStartsWith (s pre : String) : Bool :=
  pre.data.isPrefixOf s.data

/-- JavaScript String.prototype.includes on character lists: the needle
occurs as a contiguous run somewhere in the haystack. -/
def charsInclude (needle : List Char) : List Char → Bool
  | [] => needle.isEmpty
  | c :: rest => needle.isPrefixOf (c :: rest) || charsInclude needle rest

/-- JavaScript String.prototype.includes. -/
def jsIncludes (hay needle : String) : Bool :=
  charsInclude needle.data hay.data

/-! ## User projection and auth context state -/

/-- The User projection from services/interfaces/IAuthService.ts, with the
optional fallback marker used by createFallbackProfile. -/
structure User where
  id : String
  name : String
  email : String
  phone : String
  address : String
  isGuest : Bool
  isFallback : Bool := false
  deriving Repr, DecidableEq

/-- The state held by AuthProvider in contexts/AuthContext.tsx. -/
structure AuthContextState where
  user : Option User
  isLoading : Bool
  isLoggingOut : Bool
  deriving Repr, DecidableEq

/-- Computed flag isAuthenticated from contexts/AuthContext.tsx:
not-null user with isGuest false. -/
def isAuthenticatedFlag (st : AuthContextState) : Bool :=
  match st.user with
  | some u => !u.isGuest
  | none => false

/-- Computed flag isGuest from contexts/AuthContext.tsx:
not-null user with isGuest true. -/
def isGuestFlag (st : AuthContextState) : Bool :=
  match st.user with
  | some u => u.isGuest
  | none => false

/-! ## AuthService guest session -/

/-- AuthResult from services/interfaces/IAuthService.ts. -/
structure AuthResult where
  success : Bool
  user : Option User := none
  error : Option String := none
  deriving Repr, DecidableEq

/-- AuthService.loginAsGuest: synthesizes a local guest user whose id is
guest- followed by the current timestamp and a random suffix; no provider
call is made. -/
def loginAsGuest (now : Nat) (rand : String) : AuthResult :=
  { success := true
  , user := some
      { id := "guest-" ++ toString now ++ "-" ++ rand
      , name := "Guest User"
      , email := ""
      , phone := ""
      , address := ""
      , isGuest := true } }

/-! ## OrderService -/

/-- An order item as used by OrderService. -/
structure OrderItem where
  productId : String
  productName : String
  quantity : Nat
  price : Int
  deriving Repr, DecidableEq

/-- An order as produced by OrderService (guest orders carry the
isGuestOrder marker). -/
structure Order where
  id : String
  userId : String
  customerName : String
  customerEmail : String
  deliveryAddress : String
  paymentMethod : String
  totalAmount : Int
  status : String
  items : List OrderItem
  isGuestOrder : Bool := false
  deriving Repr, DecidableEq

/-- CreateOrderRequest from services/interfaces/IOrderService.ts. -/
structure CreateOrderRequest where
  userId : String
  customerName : String
  customerEmail : String
  deliveryAddress : String
  paymentMethod : String
  totalAmount : Int
  items : List OrderItem
  deriving Repr, DecidableEq

/-- Calls OrderService makes against the backing order store. -/
inductive StoreOp where
  | insertOrder
  | insertOrderItems
  | selectOrders
  | selectOrderStats
  deriving Repr, DecidableEq

/-- The guest check used throughout OrderService: the user id starts with
the guest- marker. -/
def isGuestUserId (userId : String) : Bool :=
  jsStartsWith userId "guest-"

/-- OrderService.createOrder: guest users get a locally synthesized order
with a guest-order- id and no store write; registered users get a database
insert of the order and its items. The database-assigned id of the inserted
row is a parameter. -/
def createOrder (req : CreateOrderRequest) (now : Nat) (rand : String)
    (dbOrderId : String) : Order × List StoreOp :=
  if isGuestUserId req.userId then
    ( { id := "guest-order-" ++ toString now ++ "-" ++ rand
      , userId := req.userId
      , customerName := req.customerName
      , customerEmail := req.customerEmail
      , deliveryAddress := req.deliveryAddress
      , paymentMethod := req.paymentMethod
      , totalAmount := req.totalAmount
      , status := "pending"
      , items := req.items
      , isGuestOrder := true }
    , [] )
  else
    ( { id := dbOrderId
      , userId := req.userId
      , customerName := req.customerName
      , customerEmail := req.customerEmail
      , deliveryAddress := req.deliveryAddress
      , paymentMethod := req.paymentMethod
      , totalAmount := req.totalAmount
      , status := "pending"
      , items := req.items }
    , [StoreOp.insertOrder, StoreOp.insertOrderItems] )

/-- Order statistics as computed by OrderService.getOrderStats. -/
structure OrderStats where
  total : Nat
  pending : Nat
  completed : Nat
  cancelled : Nat
  deriving Repr, DecidableEq

/-- OrderService.getOrderStats: guest ids short-circuit to empty stats with
no store query; otherwise the statuses of the user rows are counted. -/
def getOrderStats (userId : String) (dbStatuses : List String) :
    OrderStats × List StoreOp :=
  if isGuestUserId userId then
    ({ total := 0, pending := 0, completed := 0, cancelled := 0 }, [])
  else
    ( { total := dbStatuses.length
      , pending := (dbStatuses.filter (fun s => s == "pending")).length
      , completed := (dbStatuses.filter (fun s => s == "delivered")).length
      , cancelled := (dbStatuses.filter (fun s => s == "cancelled")).length }
    , [StoreOp.selectOrderStats] )

/-- OrderService.getOrders: runs under withSession and, with a session
present, always queries the orders table filtered by customer id - there is
no guest branch in this function. Without a session it throws. -/
def getOrders (session : Option String) (dbOrders : List Order)
    (userId : String) : Except String (List Order) × List StoreOp :=
  match session with
  | none => (Except.error "User must be logged in to fetch orders", [])
  | some _ =>
      ( Except.ok (dbOrders.filter (fun o => o.userId == userId))
      , [StoreOp.selectOrders] )

/-- Sample guest-scoped order request used to instantiate hypotheses. -/
def sampleGuestRequest : CreateOrderRequest :=
  { userId := "guest-1-a"
  , customerName := "G"
  , customerEmail := ""
  , deliveryAddress := "addr"
  , paymentMethod := "card"
  , totalAmount := 100
  , items := [] }

/-! ## Auth context session-change handler -/

/-- Provider session-change events received by the onAuthStateChange handler
in contexts/AuthContext.tsx; hasUser records whether the delivered session
has a user. -/
inductive AuthEvent where
  | initialSession (hasUser : Bool)
  | signedIn (hasUser : Bool)
  | signedOut
  | tokenRefreshed
  | userUpdated
  deriving Repr, DecidableEq

/-- The onAuthStateChange handler in contexts/AuthContext.tsx: a first block
re-derives the user via getCurrentUser on SIGNED_IN with a session user,
then a duplicated second block re-derives again on the same condition, the
chain clears the user on SIGNED_OUT, and every other event (including
TOKEN_REFRESHED) is ignored; loading is always cleared afterwards. The pair
returned is the new state and the number of identity re-derivations
performed; fetched is the result getCurrentUser resolves to. -/
def handleAuthEvent (st : AuthContextState) (e : AuthEvent)
    (fetched : Option User) : AuthContextState × Nat :=
  match e with
  | AuthEvent.signedIn true =>
      let st1 :=
        match fetched with
        | some u => { st with user := some u }
        | none => st
      let st2 :=
        match fetched with
        | some u => { st1 with user := some u }
        | none => st1
      ({ st2 with isLoading := false }, 2)
  | AuthEvent.signedOut => ({ st with user := none, isLoading := false }, 0)
  | _ => ({ st with isLoading := false }, 0)

/-- A sequence of session-change events processed in arrival order by the
handler, accumulating the number of identity re-derivations. -/
def runAuthEvents (st : AuthContextState) :
    List (AuthEvent × Option User) → AuthContextState × Nat
  | [] => (st, 0)
  | ev :: rest =>
      let r := handleAuthEvent st ev.1 ev.2
      let tail := runAuthEvents r.1 rest
      (tail.1, r.2 + tail.2)

/-- Sample user for concrete cache and event scenarios. -/
def sampleUserA : User :=
  { id := "user-a", name := "A", email := "a@x.com", phone := ""
  , address := "", isGuest := false }

/-- A second sample user, distinct from sampleUserA. -/
def sampleUserB : User :=
  { id := "user-b", name := "B", email := "b@x.com", phone := ""
  , address := "", isGuest := false }

/-! ## Auth operations acting on the context state -/

/-- Outcome of AuthService.login as consumed by the context. -/
inductive LoginOutcome where
  | success (u : User)
  | failure (err : String)
  deriving Repr, DecidableEq

/-- The auth operations of contexts/AuthContext.tsx, each reduced to its
effect on the context state: login and register set the user only on
success, logout clears it, loginAsGuest installs the synthesized guest,
refreshUser installs the fetched user when present, and session-change
events go through the handler. -/
inductive AuthOp where
  | loginOp (outcome : LoginOutcome)
  | registerOp (result : AuthResult)
  | logoutOp
  | loginAsGuestOp (now : Nat) (rand : String)
  | refreshUserOp (fetched : Option User)
  | authEventOp (e : AuthEvent) (fetched : Option User)

/-- State transition of each auth operation on the context state. -/
def applyAuthOp (st : AuthContextState) : AuthOp → AuthContextState
  | AuthOp.loginOp (LoginOutcome.success u) =>
      { st with user := some u, isLoading := false }
  | AuthOp.loginOp (LoginOutcome.failure _) => { st with isLoading := false }
  | AuthOp.registerOp r =>
      match r.success, r.user with
      | true, some u => { st with user := some u, isLoading := false }
      | _, _ => { st with isLoading := false }
  | AuthOp.logoutOp => { st with user := none, isLoggingOut := false }
  | AuthOp.loginAsGuestOp now rand =>
      match (loginAsGuest now rand).user with
      | some u => { st with user := some u }
      | none => st
  | AuthOp.refreshUserOp (some u) => { st with user := some u }
  | AuthOp.refreshUserOp none => st
  | AuthOp.authEventOp e fetched => (handleAuthEvent st e fetched).1

/-! ## AuthService profile loading -/

/-- The provider auth user as read by supabase.auth.getUser; optional fields
model JS values that are absent or empty (falsy). -/
structure AuthUser where
  id : String
  email : Option String
  metadataName : Option String
  deriving Repr, DecidableEq

/-- A row of the profiles table. -/
structure ProfileRow where
  id : String
  firstName : Option String
  lastName : Option String
  phone : Option String
  address : Option String
  deriving Repr, DecidableEq

/-- The error shape produced by the supabaseRequest wrapper for a failed
profiles query. -/
structure ProfileFetchError where
  message : String
  isCorsError : Bool
  deriving Repr, DecidableEq

/-- The fallback display name: email local part when present and non-empty,
else User. -/
def emailNamePart (au : AuthUser) : String :=
  match au.email with
  | some e =>
      let q := (e.splitOn "@").headD ""
      if q = "" then "User" else q
  | none => "User"

/-- authUser.user_metadata.name, else the email local part, else User. -/
def authFallbackName (au : AuthUser) : String :=
  match au.metadataName with
  | some n => n
  | none => emailNamePart au

/-- The inline fallback user built from auth-level data inside
loadUserProfile (CORS-error and missing-row branches); note it does not set
the fallback marker. -/
def fallbackFromAuth (au : AuthUser) : User :=
  { id := au.id
  , name := authFallbackName au
  , email := au.email.getD ""
  , phone := ""
  , address := ""
  , isGuest := false }

/-- Display name derived from a fetched profile row: trimmed first and last
name, else the email local part, else User. -/
def profileDisplayName (p : ProfileRow) (au : AuthUser) : String :=
  let joined := ((p.firstName.getD "") ++ " " ++ (p.lastName.getD "")).trim
  if joined = "" then emailNamePart au else joined

/-- The user built from a successfully fetched profile row. -/
def profileUser (p : ProfileRow) (au : AuthUser) : User :=
  { id := p.id
  , name := profileDisplayName p au
  , email := au.email.getD ""
  , phone := p.phone.getD ""
  , address := p.address.getD ""
  , isGuest := false }

/-- AuthService.loadUserProfile: returns null when the provider getUser call
errs or yields no user; on a profile-query error it returns the inline
fallback only for CORS errors and null otherwise; a missing profile row
yields the inline fallback; a present row yields the full profile user. -/
def loadUserProfile (authError : Bool) (authUser : Option AuthUser)
    (profileRes : Except ProfileFetchError (List ProfileRow)) : Option User :=
  if authError then none
  else
    match authUser with
    | none => none
    | some au =>
        match profileRes with
        | Except.error e =>
            if e.isCorsError then some (fallbackFromAuth au) else none
        | Except.ok rows =>
            match rows.head? with
            | none => some (fallbackFromAuth au)
            | some p => some (profileUser p au)

/-- AuthService.createFallbackProfile: the only construction that sets the
fallback marker; it is not invoked by loadUserProfile. -/
def createFallbackProfile (userId : String) : User :=
  { id := userId
  , name := "User"
  , email := ""
  , phone := ""
  , address := ""
  , isGuest := false
  , isFallback := true }

/-- A concrete valid auth user. -/
def sampleAuthUser : AuthUser :=
  { id := "user-a", email := some "a@x.com", metadataName := none }

/-! ## AuthService login and the context login flow -/

/-- The provider signInWithPassword response: subject id on success, error
message otherwise. -/
structure ProviderLoginResponse where
  user : Option String
  errorMessage : Option String
  deriving Repr, DecidableEq

/-- The error-message mapping in AuthService.login, clause by clause from
the source (substring matching mirrors error.message.includes). -/
def mapLoginErrorMessage (msg : Option String) : String :=
  match msg with
  | none => "Login failed"
  | some m =>
      if jsIncludes m "Invalid login credentials" then "Invalid login credentials"
      else if jsIncludes m "Email not confirmed" then "Email not confirmed"
      else if jsIncludes m "Too many requests" then "Too many requests"
      else if jsIncludes m "User not found" then "Invalid login credentials"
      else m

/-- AuthService.login: sign-in failure (provider error or missing user)
yields the mapped error; otherwise the profile is loaded and its absence is
itself a failure. -/
def authServiceLogin (resp : ProviderLoginResponse) (authError : Bool)
    (authUser : Option AuthUser)
    (profileRes : Except ProfileFetchError (List ProfileRow)) : LoginOutcome :=
  if resp.errorMessage.isSome || resp.user.isNone then
    LoginOutcome.failure (mapLoginErrorMessage resp.errorMessage)
  else
    match loadUserProfile authError authUser profileRes with
    | some u => LoginOutcome.success u
    | none => LoginOutcome.failure "Failed to load user profile"

/-- The login method of contexts/AuthContext.tsx: sets the user only on
success, rethrows the error on failure, and always clears isLoading in the
finally block. Returns the settled state and the propagated error, if any. -/
def contextLogin (st : AuthContextState) (outcome : LoginOutcome) :
    AuthContextState × Option String :=
  match outcome with
  | LoginOutcome.success u => ({ st with user := some u, isLoading := false }, none)
  | LoginOutcome.failure e => ({ st with isLoading := false }, some e)

/-! ## AuthService register -/

/-- Side effects performed by AuthService.register. -/
inductive RegisterEffect where
  | providerSignUp
  | insertProfile
  | providerSignOut
  | sendWelcomeEmail
  deriving Repr, DecidableEq

/-- AuthService.register: sign-up failure returns the provider message; a
profile-insert failure triggers the compensating provider sign-out and a
failure result; on insert success the loaded (or synthesized fallback)
profile is returned with a welcome email. -/
def registerService (signUpRes : Except String String)
    (profileInsertError : Option String) (loaded : Option User)
    (name email : String) : AuthResult × List RegisterEffect :=
  match signUpRes with
  | Except.error msg =>
      ({ success := false, error := some msg }, [RegisterEffect.providerSignUp])
  | Except.ok uid =>
      match profileInsertError with
      | some _ =>
          ( { success := false, error := some "Failed to create user profile" }
          , [ RegisterEffect.providerSignUp, RegisterEffect.insertProfile
            , RegisterEffect.providerSignOut ] )
      | none =>
          match loaded with
          | none =>
              ( { success := true
                , user := some
                    { id := uid, name := name, email := email, phone := ""
                    , address := "", isGuest := false } }
              , [ RegisterEffect.providerSignUp, RegisterEffect.insertProfile
                , RegisterEffect.sendWelcomeEmail ] )
          | some u =>
              ( { success := true, user := some u }
              , [ RegisterEffect.providerSignUp, RegisterEffect.insertProfile
                , RegisterEffect.sendWelcomeEmail ] )

/-! ## Corruption recovery handler -/

/-- Observable effects of handleCorruptedAuth. -/
inductive RecoveryEffect where
  | signOutLocal
  | navigate (path : String)
  deriving Repr, DecidableEq

/-- The settled outcome of a handleCorruptedAuth run. -/
structure RecoveryRun where
  cache : Cache
  effects : List RecoveryEffect
  threw : Bool
  deriving Repr, DecidableEq

/-- handleCorruptedAuth from the auth-state module: a local-scope provider
sign-out whose rejection is swallowed by the attached catch (the first
parameter records whether it failed), then the scoped purge for the known
user id or a full cache clear when the id is unknown; if the cache cleanup
throws (cacheCleanupThrows), the outer catch still emits the sign-in
navigation; the handler itself never throws. -/
def handleCorruptedAuth (_signOutFails cacheCleanupThrows : Bool)
    (userId : Option String) (cache : Cache) : RecoveryRun :=
  if cacheCleanupThrows then
    { cache := cache
    , effects := [RecoveryEffect.signOutLocal, RecoveryEffect.navigate "/auth/login"]
    , threw := false }
  else
    { cache :=
        match userId with
        | some uid => clearUserScopedCache cache uid
        | none => []
    , effects := [RecoveryEffect.signOutLocal, RecoveryEffect.navigate "/auth/login"]
    , threw := false }

/-! ## Logout flow -/

/-- Cache-purge side effects a logout flow could perform. -/
inductive CachePurgeEffect where
  | scopedPurge (uid : String)
  | clearAll
  deriving Repr, DecidableEq

/-- The settled outcome of the logout method of contexts/AuthContext.tsx. -/
structure LogoutRun where
  user : Option User
  isLoggingOut : Bool
  duration : Nat
  threw : Bool
  cachePurges : List CachePurgeEffect
  deriving Repr, DecidableEq

/-- The logout method of contexts/AuthContext.tsx composed with
AuthService.logout / AuthService.logoutGuest: the service call races the
provider (or AsyncStorage cleanup) against its own 3000ms (guest: 2000ms)
timeout and swallows any rejection, so it settles in at most 3000ms even if
the backend never resolves (backendTime = none); the context then waits the
200ms (guest: 100ms) settle delay, clears the user, and clears isLoggingOut
after a further 200ms; the 5000ms watchdog is cancelled because the service
always settles first. No path throws and no path touches the query cache. -/
def contextLogout (st : AuthContextState) (backendTime : Option Nat) : LogoutRun :=
  let guest :=
    match st.user with
    | some u => u.isGuest
    | none => false
  let raceLimit := if guest then 2000 else 3000
  let serviceDuration :=
    match backendTime with
    | some t => min t raceLimit
    | none => raceLimit
  let settleDelay := if guest then 100 else 200
  { user := none
  , isLoggingOut := false
  , duration := serviceDuration + settleDelay + 200
  , threw := false
  , cachePurges := [] }

/-! ## Session refresh deduplication -/

/-- The module-level memoization state of the session-refresh hardening:
the in-flight provider call (tagged by its sequence number), the number of
provider refreshSession calls started so far, and the callers awaiting the
in-flight call. -/
structure RefreshState where
  inFlight : Option Nat
  providerCalls : Nat
  waiters : List Nat
  deriving Repr, DecidableEq

/-- Fresh refresh-memo state. -/
def initialRefreshState : RefreshState :=
  { inFlight := none, providerCalls := 0, waiters := [] }

/-- ensureSession: when no refresh is in flight it starts one provider call
and awaits it; when one is in flight the caller simply awaits the same
promise - no new provider call. -/
def ensureSessionCall (caller : Nat) (st : RefreshState) : RefreshState :=
  match st.inFlight with
  | none =>
      { inFlight := some st.providerCalls
      , providerCalls := st.providerCalls + 1
      , waiters := st.waiters ++ [caller] }
  | some _ => { st with waiters := st.waiters ++ [caller] }

/-- AuthService.refreshToken: calls the provider refreshSession directly,
without consulting the in-flight memo. -/
def refreshTokenCall (st : RefreshState) : RefreshState :=
  { st with providerCalls := st.providerCalls + 1 }

/-- The provider call resolves: every awaiting caller receives the same
result and the memo slot is cleared (the finally handler). -/
def providerResolve (st : RefreshState) (result : String) :
    List (Nat × String) × RefreshState :=
  (st.waiters.map (fun c => (c, result)), { st with inFlight := none, waiters := [] })

/-- A burst of callers arriving through ensureSession. -/
def ensureSessionBurst (callers : List Nat) (st : RefreshState) : RefreshState :=
  callers.foldl (fun s c => ensureSessionCall c s) st

/-! # Theorems -/

/-! ## Helper lemmas -/

/-- A list is a Boolean prefix of itself followed by anything. -/
theorem isPrefixOf_append_self {α : Type} [BEq α] [LawfulBEq α] (l m : List α) :
    l.isPrefixOf (l ++ m) = true := by
  simp [List.isPrefixOf_iff_prefix]

/-- The guest id synthesized by loginAsGuest always carries the guest-
marker, whatever the timestamp and random suffix. -/
theorem guest_id_has_guest_marker (now : Nat) (rand : String) :
    jsStartsWith ("guest-" ++ toString now ++ "-" ++ rand) "guest-" = true := by
  simp [jsStartsWith, isPrefixOf_append_self]

/-- Per-event re-derivation count of the session-change handler. -/
theorem handleAuthEvent_count (st : AuthContextState) (e : AuthEvent)
    (fetched : Option User) :
    (handleAuthEvent st e fetched).2
      = if e = AuthEvent.signedIn true then 2 else 0 := by
  cases e with
  | signedIn b => cases b <;> cases fetched <;> simp [handleAuthEvent]
  | initialSession b => cases b <;> simp [handleAuthEvent]
  | signedOut => simp [handleAuthEvent]
  | tokenRefreshed => simp [handleAuthEvent]
  | userUpdated => simp [handleAuthEvent]

/-- TOKEN_REFRESHED leaves the user untouched and performs no
re-derivation. -/
theorem handleAuthEvent_tokenRefreshed (st : AuthContextState)
    (fetched : Option User) :
    handleAuthEvent st AuthEvent.tokenRefreshed fetched
      = ({ st with isLoading := false }, 0) := rfl

/-- The flag characterization at an arbitrary context state. -/
theorem authFlags_spec (st : AuthContextState) :
    (isAuthenticatedFlag st = true ↔ ∃ u, st.user = some u ∧ u.isGuest = false)
    ∧ (isGuestFlag st = true ↔ ∃ u, st.user = some u ∧ u.isGuest = true)
    ∧ (isAuthenticatedFlag st && isGuestFlag st) = false
    ∧ ((isAuthenticatedFlag st = false ∧ isGuestFlag st = false)
        ↔ st.user = none) := by
  obtain ⟨u, l, lo⟩ := st
  cases u with
  | none => simp [isAuthenticatedFlag, isGuestFlag]
  | some v => cases hv : v.isGuest <;> simp [isAuthenticatedFlag, isGuestFlag, hv]

/-- While a refresh is in flight, ensureSession callers only join the waiter
list. -/
theorem ensureSessionBurst_inFlight (callers : List Nat) (st : RefreshState)
    (k : Nat) (h : st.inFlight = some k) :
    ensureSessionBurst callers st = { st with waiters := st.waiters ++ callers } := by
  induction callers generalizing st with
  | nil => simp [ensureSessionBurst]
  | cons c cs ih =>
      have h2 : (ensureSessionCall c st).inFlight = some k := by
        simp [ensureSessionCall, h]
      calc ensureSessionBurst (c :: cs) st
          = ensureSessionBurst cs (ensureSessionCall c st) := rfl
        _ = { ensureSessionCall c st with
                waiters := (ensureSessionCall c st).waiters ++ cs } := ih _ h2
        _ = { st with waiters := st.waiters ++ (c :: cs) } := by
              simp [ensureSessionCall, h]

/-! ## Claim theorems -/

/-- C1: the scoped purge clearUserScopedCache does NOT remove every key
scoped to the purged user. Evaluated on a cache populated with the canonical
registry keys for users A and B plus the auth keys, purging user A leaves
the A-scoped keys [orders, stats, A], [messages, unread, A] and
[messages, conversation, A] in the cache, because the predicate only matches
the [orders, user, A] and [messages, user, A] shapes; the same file's own
getUserScopedKeys enumerates the three surviving keys as user-scoped cleanup
targets. The auth keys and the other user-scoped shapes behave as
claimed. -/
theorem clearUserScopedCache_misses_canonical_user_keys :
    clearUserScopedCachePredicate "A" (queryKeys.ordersStats "A") = false
    ∧ clearUserScopedCachePredicate "A" (queryKeys.messagesUnreadCount "A") = false
    ∧ clearUserScopedCachePredicate "A" (queryKeys.messagesConversation "A") = false
    ∧ (clearUserScopedCache (populatedCache "A" "B") "A")
        = [ queryKeys.ordersStats "A"
          , queryKeys.messagesUnreadCount "A"
          , queryKeys.messagesConversation "A" ]
          ++ getUserScopedKeys "B" := by
  decide

/-- C2 counterexample: for the guest identity produced by loginAsGuest
(timestamp 123, suffix abc, so id guest-123-abc with isGuest true), the
listing operation getOrders does NOT short-circuit: with a session present
it issues a query to the backing order store, and without a session it
throws instead of returning an empty local result. -/
theorem getOrders_no_guest_short_circuit :
    ((loginAsGuest 123 "abc").user.map User.id) = some "guest-123-abc"
    ∧ ((loginAsGuest 123 "abc").user.map User.isGuest) = some true
    ∧ (getOrders (some "sess") [] "guest-123-abc").2 = [StoreOp.selectOrders]
    ∧ (getOrders none [] "guest-123-abc").1
        = Except.error "User must be logged in to fetch orders" :=
  ⟨rfl, rfl, rfl, rfl⟩

/-- C2 amended: guest identities always carry the guest- marker with isGuest
true; order creation for a guest id synthesizes a local guest-order- record
with no store write, and getOrderStats short-circuits to empty stats with no
store query; but the listing operation getOrders has no guest branch and,
with a session present, always issues a store query whatever the user id. -/
theorem guest_isolation_amended (now : Nat) (rand : String)
    (req : CreateOrderRequest) (sess : String) (db : List Order)
    (dbStatuses : List String) (dbOrderId : String) :
    (∀ u, (loginAsGuest now rand).user = some u →
        u.isGuest = true ∧ jsStartsWith u.id "guest-" = true)
    ∧ (isGuestUserId req.userId = true →
        jsStartsWith (createOrder req now rand dbOrderId).1.id "guest-order-" = true
        ∧ (createOrder req now rand dbOrderId).1.isGuestOrder = true
        ∧ (createOrder req now rand dbOrderId).2 = [])
    ∧ (isGuestUserId req.userId = true →
        getOrderStats req.userId dbStatuses
          = ({ total := 0, pending := 0, completed := 0, cancelled := 0 }, []))
    ∧ (getOrders (some sess) db req.userId).2 = [StoreOp.selectOrders] := by
  refine ⟨?_, ?_, ?_, rfl⟩
  · intro u hu
    simp [loginAsGuest] at hu
    subst hu
    exact ⟨rfl, guest_id_has_guest_marker now rand⟩
  · intro h
    simp [createOrder, h, jsStartsWith, isPrefixOf_append_self]
  · intro h
    simp [getOrderStats, h]

/-- C2 amended witness: the amended theorem applied at a concrete guest
request. -/
theorem guest_isolation_amended_witness :
    jsStartsWith (createOrder sampleGuestRequest 5 "r" "db1").1.id "guest-order-" = true
    ∧ (createOrder sampleGuestRequest 5 "r" "db1").2 = []
    ∧ getOrderStats "guest-1-a" ["pending"]
        = ({ total := 0, pending := 0, completed := 0, cancelled := 0 }, []) :=
  have h := guest_isolation_amended 5 "r" sampleGuestRequest "sess" [] ["pending"] "db1"
  ⟨(h.2.1 (by decide)).1, (h.2.1 (by decide)).2.2, h.2.2.1 (by decide)⟩

/-- C3 counterexample: logout performs no cache-purge side effect in either
outcome - neither on a timely provider success (backend settles immediately)
nor on the forced timeout (backend never settles); the claimed shared
cache-purge side effect does not exist in this flow. -/
theorem logout_no_cache_purge_effect :
    (contextLogout { user := some sampleUserA, isLoading := false, isLoggingOut := false }
        (some 0)).cachePurges = []
    ∧ (contextLogout { user := some sampleUserA, isLoading := false, isLoggingOut := false }
        none).cachePurges = [] :=
  ⟨rfl, rfl⟩

/-- C3 amended: logout always settles with the user cleared and the
logging-out flag reset, never throws, and completes within 3400ms (well
inside the 5000ms watchdog) even when the provider call never resolves; the
two outcomes perform identical - namely no - cache-purge side effects. -/
theorem logout_bounded_no_throw (st : AuthContextState)
    (backendTime : Option Nat) :
    (contextLogout st backendTime).user = none
    ∧ (contextLogout st backendTime).isLoggingOut = false
    ∧ (contextLogout st backendTime).threw = false
    ∧ (contextLogout st backendTime).duration ≤ 3400
    ∧ (contextLogout st backendTime).cachePurges
        = (contextLogout st (some 0)).cachePurges := by
  refine ⟨rfl, rfl, rfl, ?_, rfl⟩
  obtain ⟨u, l, lo⟩ := st
  cases u with
  | none => cases backendTime <;> simp [contextLogout]
  | some v =>
      cases hv : v.isGuest <;> cases backendTime <;>
        simp [contextLogout, hv]

/-- C4 counterexample: one refresh is in flight (started by an ensureSession
caller); a single further caller requesting a refresh through
AuthService.refreshToken makes a second underlying provider call - not
exactly one. -/
theorem refreshToken_bypasses_dedup :
    (ensureSessionCall 0 initialRefreshState).inFlight = some 0
    ∧ (refreshTokenCall (ensureSessionCall 0 initialRefreshState)).providerCalls = 2 :=
  ⟨rfl, rfl⟩

/-- C4 amended: any number of callers requesting a refresh through
ensureSession while one is in flight add no provider call, and when the
single in-flight call resolves every caller - the initiator and all
joiners - receives that same result; AuthService.refreshToken, by contrast,
always issues an additional provider call. -/
theorem ensureSession_dedup (callers : List Nat) (result : String) :
    (ensureSessionBurst callers (ensureSessionCall 0 initialRefreshState)).providerCalls = 1
    ∧ (providerResolve
          (ensureSessionBurst callers (ensureSessionCall 0 initialRefreshState))
          result).1
        = (0 :: callers).map (fun c => (c, result))
    ∧ (providerResolve
          (ensureSessionBurst callers (ensureSessionCall 0 initialRefreshState))
          result).2.inFlight = none
    ∧ ∀ st : RefreshState, (refreshTokenCall st).providerCalls = st.providerCalls + 1 := by
  have hburst := ensureSessionBurst_inFlight callers
    (ensureSessionCall 0 initialRefreshState) 0 rfl
  refine ⟨?_, ?_, ?_, fun st => rfl⟩
  · rw [hburst]
    rfl
  · rw [hburst]
    simp [providerResolve, ensureSessionCall, initialRefreshState]
  · rw [hburst]
    rfl

/-- C5: a login attempt with invalid credentials settles with the mapped
credential error - Invalid login credentials - propagated to the caller, the
user projection unchanged (null stays null), and isLoading false. -/
theorem login_invalid_credentials (st : AuthContextState)
    (resp : ProviderLoginResponse) (authError : Bool)
    (authUser : Option AuthUser)
    (profileRes : Except ProfileFetchError (List ProfileRow))
    (h : resp.errorMessage = some "Invalid login credentials") :
    authServiceLogin resp authError authUser profileRes
      = LoginOutcome.failure "Invalid login credentials"
    ∧ (contextLogin st (authServiceLogin resp authError authUser profileRes)).1.user
      = st.user
    ∧ (contextLogin st (authServiceLogin resp authError authUser profileRes)).1.isLoading
      = false
    ∧ (contextLogin st (authServiceLogin resp authError authUser profileRes)).2
      = some "Invalid login credentials" := by
  have hmap : mapLoginErrorMessage (some "Invalid login credentials")
      = "Invalid login credentials" := by decide
  have hout : authServiceLogin resp authError authUser profileRes
      = LoginOutcome.failure "Invalid login credentials" := by
    simp [authServiceLogin, h, hmap]
  refine ⟨hout, ?_, ?_, ?_⟩ <;> simp [hout, contextLogin]

/-- C5 witness: the theorem applied to the anonymous loading state and the
concrete provider rejection. -/
theorem login_invalid_credentials_witness :
    (contextLogin { user := none, isLoading := true, isLoggingOut := false }
        (authServiceLogin { user := none, errorMessage := some "Invalid login credentials" }
          false none (Except.ok []))).1.user = none
    ∧ (contextLogin { user := none, isLoading := true, isLoggingOut := false }
        (authServiceLogin { user := none, errorMessage := some "Invalid login credentials" }
          false none (Except.ok []))).1.isLoading = false
    ∧ (contextLogin { user := none, isLoading := true, isLoggingOut := false }
        (authServiceLogin { user := none, errorMessage := some "Invalid login credentials" }
          false none (Except.ok []))).2 = some "Invalid login credentials" :=
  have h := login_invalid_credentials
    { user := none, isLoading := true, isLoggingOut := false }
    { user := none, errorMessage := some "Invalid login credentials" }
    false none (Except.ok []) rfl
  ⟨h.2.1, h.2.2.1, h.2.2.2⟩

/-- C6 counterexample: for a valid session subject, a non-CORS profile-fetch
error makes loadUserProfile return null - the caller treats that as a failed
login, blocking the user out instead of degrading to a fallback; and on the
branch where a fallback IS synthesized (CORS error), the resulting identity
is not flagged as a fallback. -/
theorem loadUserProfile_error_returns_none :
    loadUserProfile false (some sampleAuthUser)
        (Except.error { message := "permission denied for table profiles"
                      , isCorsError := false })
      = none
    ∧ (loadUserProfile false (some sampleAuthUser)
        (Except.error { message := "Failed to fetch", isCorsError := true })).map
          User.isFallback
      = some false :=
  ⟨rfl, rfl⟩

/-- C6 amended: identity derivation degrades to an auth-data fallback
exactly on CORS profile-fetch errors and on a missing profile row; every
other profile-fetch error for a valid session yields null (a failed
login/getCurrentUser); the synthesized fallback keeps the subject id but
carries isFallback = false, while the flagged createFallbackProfile helper
is a separate construction. -/
theorem loadUserProfile_fallback_amended (au : AuthUser) (e : ProfileFetchError) :
    loadUserProfile false (some au) (Except.error e)
      = (if e.isCorsError then some (fallbackFromAuth au) else none)
    ∧ loadUserProfile false (some au) (Except.ok []) = some (fallbackFromAuth au)
    ∧ (fallbackFromAuth au).id = au.id
    ∧ (fallbackFromAuth au).isGuest = false
    ∧ (fallbackFromAuth au).isFallback = false
    ∧ (createFallbackProfile au.id).isFallback = true :=
  ⟨rfl, rfl, rfl, rfl, rfl, rfl⟩

/-- C7: handleCorruptedAuth never throws, in every path - including failed
provider sign-out and failed cache cleanup - it emits the navigation signal
to the sign-in screen, and when the cleanup runs it applies the scoped purge
for exactly the known user id, or clears the whole cache when the id is
unknown. -/
theorem handleCorruptedAuth_safe (signOutFails cacheCleanupThrows : Bool)
    (userId : Option String) (cache : Cache) :
    (handleCorruptedAuth signOutFails cacheCleanupThrows userId cache).threw = false
    ∧ RecoveryEffect.navigate "/auth/login"
        ∈ (handleCorruptedAuth signOutFails cacheCleanupThrows userId cache).effects
    ∧ (∀ uid, cacheCleanupThrows = false → userId = some uid →
        (handleCorruptedAuth signOutFails cacheCleanupThrows userId cache).cache
          = clearUserScopedCache cache uid)
    ∧ (cacheCleanupThrows = false → userId = none →
        (handleCorruptedAuth signOutFails cacheCleanupThrows userId cache).cache
          = []) := by
  cases cacheCleanupThrows with
  | false =>
      refine ⟨rfl, by simp [handleCorruptedAuth], ?_, ?_⟩
      · intro uid _ h2
        subst h2
        rfl
      · intro _ h2
        subst h2
        rfl
  | true =>
      refine ⟨rfl, by simp [handleCorruptedAuth], ?_, ?_⟩
      · intro uid hcc _
        exact absurd hcc (by decide)
      · intro hcc _
        exact absurd hcc (by decide)

/-- C7 witness: the handler run with a known user id on the populated
two-user cache, and with an unknown id. -/
theorem handleCorruptedAuth_safe_witness :
    (handleCorruptedAuth false false (some "A") (populatedCache "A" "B")).threw = false
    ∧ (handleCorruptedAuth false false (some "A") (populatedCache "A" "B")).cache
        = clearUserScopedCache (populatedCache "A" "B") "A"
    ∧ (handleCorruptedAuth true false none (populatedCache "A" "B")).cache = [] :=
  have h1 := handleCorruptedAuth_safe false false (some "A") (populatedCache "A" "B")
  have h2 := handleCorruptedAuth_safe true false none (populatedCache "A" "B")
  ⟨h1.1, h1.2.2.1 "A" rfl rfl, h2.2.2.2 rfl rfl⟩

/-- C8: whenever provider sign-up succeeds but profile creation fails,
register performs the compensating sign-out and returns a failure result;
and no execution of register returns success when the profile insert
failed. -/
theorem register_rollback_on_profile_failure :
    (∀ (uid errMsg : String) (loaded : Option User) (name email : String),
      (registerService (Except.ok uid) (some errMsg) loaded name email).1.success = false
      ∧ (registerService (Except.ok uid) (some errMsg) loaded name email).1.error
          = some "Failed to create user profile"
      ∧ RegisterEffect.providerSignOut
          ∈ (registerService (Except.ok uid) (some errMsg) loaded name email).2)
    ∧ ∀ (s : Except String String) (p : Option String) (loaded : Option User)
        (name email : String),
        (registerService s p loaded name email).1.success = true → p = none := by
  constructor
  · intro uid errMsg loaded name email
    exact ⟨rfl, rfl, by simp [registerService]⟩
  · intro s p loaded name email h
    cases s with
    | error m => simp [registerService] at h
    | ok uid =>
        cases p with
        | none => rfl
        | some e => simp [registerService] at h

/-- C8 witness: the rollback branch at a concrete failed insert, and the
no-silent-success implication discharged at a concrete successful run. -/
theorem register_rollback_witness :
    (registerService (Except.ok "uid1") (some "duplicate key") none "N" "n@x.com").1.success
      = false
    ∧ RegisterEffect.providerSignOut
        ∈ (registerService (Except.ok "uid1") (some "duplicate key") none "N" "n@x.com").2
    ∧ (none : Option String) = none :=
  have h := register_rollback_on_profile_failure
  ⟨(h.1 "uid1" "duplicate key" none "N" "n@x.com").1,
   (h.1 "uid1" "duplicate key" none "N" "n@x.com").2.2,
   h.2 (Except.ok "uid2") none none "N" "n@x.com" rfl⟩

/-- C9 counterexample: the provider emits TOKEN_REFRESHED twice in rapid
succession; the handler performs zero identity re-derivations (the claim
requires at least one) and the user projection is left exactly as it was. -/
theorem tokenRefreshed_ignored_counterexample :
    (runAuthEvents { user := some sampleUserA, isLoading := false, isLoggingOut := false }
        [ (AuthEvent.tokenRefreshed, some sampleUserB)
        , (AuthEvent.tokenRefreshed, some sampleUserB) ]).2 = 0
    ∧ (runAuthEvents { user := some sampleUserA, isLoading := false, isLoggingOut := false }
        [ (AuthEvent.tokenRefreshed, some sampleUserB)
        , (AuthEvent.tokenRefreshed, some sampleUserB) ]).1.user
        = some sampleUserA := by
  decide

/-- C9 amended: re-derivation happens exactly twice per SIGNED_IN event that
carries a session user (the handler contains two duplicated SIGNED_IN
blocks) and never otherwise; in particular every run consisting solely of
TOKEN_REFRESHED events performs zero re-derivations and leaves the user
projection unchanged. -/
theorem auth_event_rederivation :
    (∀ (st : AuthContextState) (evs : List (AuthEvent × Option User)),
      (runAuthEvents st evs).2
        = 2 * (evs.filter (fun ev => ev.1 = AuthEvent.signedIn true)).length)
    ∧ ∀ (st : AuthContextState) (fetched : Option User) (n : Nat),
        (runAuthEvents st (List.replicate n (AuthEvent.tokenRefreshed, fetched))).1.user
          = st.user
        ∧ (runAuthEvents st (List.replicate n (AuthEvent.tokenRefreshed, fetched))).2 = 0 := by
  constructor
  · intro st evs
    induction evs generalizing st with
    | nil => simp [runAuthEvents]
    | cons ev rest ih =>
        simp only [runAuthEvents, ih, handleAuthEvent_count, List.filter_cons]
        by_cases h : ev.1 = AuthEvent.signedIn true <;>
          simp [h, Nat.mul_add, Nat.add_comm]
  · intro st fetched n
    induction n generalizing st with
    | zero => simp [runAuthEvents]
    | succ k ih =>
        simp only [List.replicate_succ, runAuthEvents, handleAuthEvent_tokenRefreshed]
        exact ⟨(ih _).1, by simp [(ih _).2]⟩

/-- C10: in every context state the derived flags satisfy: isAuthenticated
holds exactly for a non-null non-guest user, isGuest exactly for a non-null
guest user, the two are never simultaneously true, and both are false
exactly when the user is null; and the invariant is preserved by every auth
operation since the flags are recomputed from the resulting state. -/
theorem auth_flags_invariant :
    (∀ st : AuthContextState,
      (isAuthenticatedFlag st = true ↔ ∃ u, st.user = some u ∧ u.isGuest = false)
      ∧ (isGuestFlag st = true ↔ ∃ u, st.user = some u ∧ u.isGuest = true)
      ∧ (isAuthenticatedFlag st && isGuestFlag st) = false
      ∧ ((isAuthenticatedFlag st = false ∧ isGuestFlag st = false)
          ↔ st.user = none))
    ∧ ∀ (st : AuthContextState) (op : AuthOp),
        (isAuthenticatedFlag (applyAuthOp st op)
            && isGuestFlag (applyAuthOp st op)) = false
        ∧ ((isAuthenticatedFlag (applyAuthOp st op) = false
              ∧ isGuestFlag (applyAuthOp st op) = false)
            ↔ (applyAuthOp st op).user = none) :=
  ⟨fun st => authFlags_spec st,
   fun st op => ⟨(authFlags_spec (applyAuthOp st op)).2.2.1,
                 (authFlags_spec (applyAuthOp st op)).2.2.2⟩⟩

/-- C10 witness: the invariant evaluated at a concrete state and after a
concrete operation. -/
theorem auth_flags_invariant_witness :
    (isAuthenticatedFlag { user := none, isLoading := true, isLoggingOut := false }
        && isGuestFlag { user := none, isLoading := true, isLoggingOut := false }) = false
    ∧ (isAuthenticatedFlag
          (applyAuthOp { user := some sampleUserA, isLoading := false, isLoggingOut := false }
            AuthOp.logoutOp)
        && isGuestFlag
          (applyAuthOp { user := some sampleUserA, isLoading := false, isLoggingOut := false }
            AuthOp.logoutOp)) = false :=
  ⟨(auth_flags_invariant.1 _).2.2.1, (auth_flags_invariant.2 _ _).1⟩

end OnoloGas
